import Mathlib

/-!
Verification development for the NCS customs chatbot frontend
(`src/frontend/src/app/page.tsx`).

The repository's only stateful component is the conversation/request
lifecycle inside the `NCSChatbot` React component: the message list, the
text input and the in-flight flag, mutated solely by `handleSubmit` and
its success / failure continuations.  We embed that state machine
shallowly: React state becomes a `ChatState` record, the synchronous
prefix of `handleSubmit` becomes a pure function returning the new state
plus the outbound request (if any), and the two `setMessages` callbacks
that run when the `fetch` promise resolves become the pure functions
`resolveSuccess` and `resolveFailure`.  The backend's JSON reply is
embedded as `ChatResponse`; an absent `answer` field and an absent
`sources` field are modelled as `""` and `[]`, which is exactly how the
code collapses them (`data.answer || fallback`, `data.sources || []`).
-/

namespace NCSChat

/-- The set of characters removed by JavaScript `String.prototype.trim`
(the code calls `input.trim()`): ASCII whitespace plus the no-break
space; exotic Unicode space separators are omitted as irrelevant to the
properties proved here. -/
def isJsWhitespace (c : Char) : Bool :=
  c = ' ' || c = '\t' || c = '\n' || c = '\r' || c = '\x0b' || c = '\x0c' || c = ' '

/-- JavaScript `String.prototype.trim`: drop leading and trailing
whitespace. -/
def jsTrim (s : String) : String :=
  String.mk (((s.data.dropWhile isJsWhitespace).reverse.dropWhile isJsWhitespace).reverse)

/-- Stand-in for the opaque `Record<string, unknown>` carried by a
citation.  The UI never inspects it (it is passed through unmodified by
the source-field mapping), so any type with decidable equality is a
faithful embedding. -/
abbrev Metadata := List (String × String)

/-- `interface Source` from page.tsx: `text: string`,
`metadata?: Record<string, unknown>`. -/
structure Source where
  text : String
  metadata : Option Metadata := none
deriving DecidableEq, Repr

/-- The role union type `"user" | "assistant"` of `interface Message`. -/
inductive Role where
  | user
  | assistant
deriving DecidableEq, Repr

/-- `interface Message` from page.tsx.  The optional fields `sources?`,
`isLoading?` and `error?` become an `Option` and two `Bool`s: for the
booleans, presence/absence is observationally the same as true/false in
the code (`message.isLoading`, `message.error` are only used as
conditions), while for `sources` presence is observable
(`message.sources && message.sources.length > 0`), so it stays an
`Option`. -/
structure Message where
  role : Role
  content : String
  sources : Option (List Source) := none
  isLoading : Bool := false
  error : Bool := false
deriving DecidableEq, Repr

/-- One citation item of the backend reply: carries
`source_text_preview` and `metadata` (`s.metadata` may be absent). -/
structure Citation where
  source_text_preview : String
  metadata : Option Metadata := none
deriving DecidableEq, Repr

/-- Parsed JSON body of a successful `/chat` reply.  An absent `answer`
is modelled as `""` and an absent `sources` array as `[]`: the code
collapses exactly these cases via `data.answer || fallback` (the empty
string is the only falsy string) and `data.sources || []`. -/
structure ChatResponse where
  answer : String
  sources : List Citation
deriving DecidableEq, Repr

/-- The POST body `{ query: userMessage }` sent to the backend. -/
structure OutboundRequest where
  query : String
deriving DecidableEq, Repr

/-- The React state of `NCSChatbot`: `messages`, `input`, `isLoading`. -/
structure ChatState where
  messages : List Message
  input : String
  isLoading : Bool
deriving DecidableEq, Repr

/-- The seeded welcome message (initial value of `useState<Message[]>`). -/
def welcomeMessage : Message :=
  { role := .assistant
    content := "Welcome, Officer. I am your instant knowledge assistant. Ask me about tariffs, prohibited items, or the NCS Act." }

/-- The placeholder appended by step 2 of `handleSubmit`:
`{ role: "assistant", content: "", isLoading: true }`. -/
def placeholderMessage : Message :=
  { role := .assistant, content := "", isLoading := true }

/-- Fallback answer text: `"I apologize, but I could not generate a response."`. -/
def fallbackAnswer : String :=
  "I apologize, but I could not generate a response."

/-- The fixed connectivity-error text of the catch branch. -/
def connectivityErrorText : String :=
  "I apologize, but I encountered an error connecting to the knowledge base. Please ensure the backend service is running and try again."

/-- The finalized error message built in the catch branch (3b):
role assistant, fixed text, `error: true`, no `sources` field. -/
def errorMessage : Message :=
  { role := .assistant, content := connectivityErrorText, error := true }

/-- Initial component state: the welcome message, empty input, not loading. -/
def initialState : ChatState :=
  { messages := [welcomeMessage], input := "", isLoading := false }

/-- The `onChange` handler of the input field: `setInput(e.target.value)`. -/
def setInput (s : ChatState) (text : String) : ChatState :=
  { s with input := text }

/-- The synchronous prefix of `handleSubmit`: the guard
`if (!input.trim() || isLoading) return`, then `setInput("")`, the two
`setMessages` appends (user message with the trimmed text, then the
loading placeholder), `setIsLoading(true)`, and the issuing of the
`fetch` POST with body `{ query: userMessage }`.  Returns the state as
of the `await` point together with the outbound request, or `none` when
the guard fired. -/
def handleSubmit (s : ChatState) : ChatState × Option OutboundRequest :=
  if jsTrim s.input = "" || s.isLoading then (s, none)
  else
    let userMessage := jsTrim s.input
    ({ messages := s.messages ++
        [{ role := .user, content := userMessage }, placeholderMessage]
       input := ""
       isLoading := true },
     some { query := userMessage })

/-- The `CRITICAL FIX` mapping: `(data.sources || []).map(s => ({ text:
s.source_text_preview, metadata: s.metadata }))`. -/
def transformSources (cs : List Citation) : List Source :=
  cs.map fun c => { text := c.source_text_preview, metadata := c.metadata }

/-- Step 3 of `handleSubmit` (success continuation): `prev.slice(0, -1)`
drops the placeholder, then one finalized assistant message is appended
with `content = data.answer || fallback` and
`sources = transformedSources`; the `finally` block clears the flag. -/
def resolveSuccess (s : ChatState) (resp : ChatResponse) : ChatState :=
  { s with
    messages := s.messages.dropLast ++
      [{ role := .assistant
         content := if resp.answer = "" then fallbackAnswer else resp.answer
         sources := some (transformSources resp.sources) }]
    isLoading := false }

/-- Step 3b of `handleSubmit` (catch branch, reached on non-2xx status,
network exception, or a body that fails to parse as JSON):
`prev.slice(0, -1)` drops the placeholder and the fixed error message is
appended; the `finally` block clears the flag. -/
def resolveFailure (s : ChatState) : ChatState :=
  { s with
    messages := s.messages.dropLast ++ [errorMessage]
    isLoading := false }

/-- The events that mutate the component state.  Typing and submitting
can happen at any time (the DOM `disabled` attributes only make some of
them no-ops, which `handleSubmit`'s own guard already enforces); a
resolution event can only fire while its request is outstanding, i.e.
while the in-flight flag is set, since the single-threaded event loop
runs the continuations of exactly the one `fetch` issued by the submit
that set the flag. -/
inductive Step : ChatState → ChatState → Prop where
  | typing (s : ChatState) (text : String) : Step s (setInput s text)
  | submit (s : ChatState) : Step s (handleSubmit s).1
  | success (s : ChatState) (resp : ChatResponse) (h : s.isLoading = true) :
      Step s (resolveSuccess s resp)
  | failure (s : ChatState) (h : s.isLoading = true) :
      Step s (resolveFailure s)

/-- States reachable from the initial component state. -/
inductive Reachable : ChatState → Prop where
  | init : Reachable initialState
  | step {s t : ChatState} : Reachable s → Step s t → Reachable t

/-- No message of the list is a loading placeholder. -/
def NoLoading (ms : List Message) : Prop := ∀ m ∈ ms, m.isLoading = false

/-- The lifecycle invariant: while a request is outstanding the message
list ends with the unique loading placeholder, and otherwise no message
is loading. -/
def LifecycleInv (s : ChatState) : Prop :=
  (s.isLoading = true →
    ∃ ms, s.messages = ms ++ [placeholderMessage] ∧ NoLoading ms) ∧
  (s.isLoading = false → NoLoading s.messages)

theorem lifecycleInv_init : LifecycleInv initialState := by
  constructor
  · intro h; simp [initialState] at h
  · intro _ m hm
    simp [initialState] at hm
    simp [hm, welcomeMessage]

theorem lifecycleInv_step {s t : ChatState} (hs : LifecycleInv s) (hstep : Step s t) :
    LifecycleInv t := by
  cases hstep with
  | typing text =>
    exact ⟨fun h => hs.1 h, fun h => hs.2 h⟩
  | submit =>
    by_cases hg : (jsTrim s.input = "" || s.isLoading) = true
    · simpa [handleSubmit, hg] using hs
    · simp only [Bool.or_eq_true, decide_eq_true_eq, not_or, Bool.not_eq_true] at hg
      have hnl : NoLoading s.messages := hs.2 hg.2
      constructor
      · intro _
        refine ⟨s.messages ++ [{ role := .user, content := jsTrim s.input }], ?_, ?_⟩
        · simp [handleSubmit, hg.1, hg.2]
        · intro m hm
          rcases List.mem_append.mp hm with hin | hin
          · exact hnl m hin
          · simp at hin; simp [hin]
      · intro habs
        simp [handleSubmit, hg.1, hg.2] at habs
  | success resp h =>
    obtain ⟨ms, hms, hnl⟩ := hs.1 h
    constructor
    · intro habs; simp [resolveSuccess] at habs
    · intro _ m hm
      simp only [resolveSuccess, hms, List.dropLast_concat] at hm
      rcases List.mem_append.mp hm with hin | hin
      · exact hnl m hin
      · simp at hin; simp [hin]
  | failure h =>
    obtain ⟨ms, hms, hnl⟩ := hs.1 h
    constructor
    · intro habs; simp [resolveFailure] at habs
    · intro _ m hm
      simp only [resolveFailure, hms, List.dropLast_concat] at hm
      rcases List.mem_append.mp hm with hin | hin
      · exact hnl m hin
      · simp at hin; simp [hin, errorMessage]

theorem lifecycleInv_reachable {s : ChatState} (h : Reachable s) : LifecycleInv s := by
  induction h with
  | init => exact lifecycleInv_init
  | step _ hstep ih => exact lifecycleInv_step ih hstep

/-- Number of messages currently flagged as loading. -/
def loadingCount (ms : List Message) : Nat :=
  (ms.filter fun m => m.isLoading).length

theorem loadingCount_of_noLoading {ms : List Message} (h : NoLoading ms) :
    loadingCount ms = 0 := by
  unfold loadingCount
  rw [List.filter_eq_nil_iff.mpr]
  · rfl
  · intro m hm
    simp [h m hm]

/-- Every user message carries non-empty content. -/
def UserContentInv (s : ChatState) : Prop :=
  ∀ m ∈ s.messages, m.role = Role.user → m.content ≠ ""

theorem userContentInv_step {s t : ChatState} (hs : UserContentInv s) (hstep : Step s t) :
    UserContentInv t := by
  cases hstep with
  | typing text => exact hs
  | submit =>
    by_cases hg : (jsTrim s.input = "" || s.isLoading) = true
    · simpa [UserContentInv, handleSubmit, hg] using hs
    · simp only [Bool.or_eq_true, decide_eq_true_eq, not_or, Bool.not_eq_true] at hg
      intro m hm hrole
      rw [show (handleSubmit s).1.messages = s.messages ++
          [{ role := .user, content := jsTrim s.input }, placeholderMessage] by
        simp [handleSubmit, hg.1, hg.2]] at hm
      rcases List.mem_append.mp hm with hin | hin
      · exact hs m hin hrole
      · simp only [List.mem_cons, List.not_mem_nil, or_false] at hin
        rcases hin with hin | hin
        · subst hin; simpa using hg.1
        · subst hin; simp [placeholderMessage] at hrole
  | success resp h =>
    intro m hm hrole
    simp only [resolveSuccess] at hm
    rcases List.mem_append.mp hm with hin | hin
    · exact hs m ((List.dropLast_sublist s.messages).subset hin) hrole
    · simp only [List.mem_cons, List.not_mem_nil, or_false] at hin
      subst hin
      simp at hrole
  | failure h =>
    intro m hm hrole
    simp only [resolveFailure] at hm
    rcases List.mem_append.mp hm with hin | hin
    · exact hs m ((List.dropLast_sublist s.messages).subset hin) hrole
    · simp only [List.mem_cons, List.not_mem_nil, or_false] at hin
      subst hin
      simp [errorMessage] at hrole

theorem userContentInv_reachable {s : ChatState} (h : Reachable s) : UserContentInv s := by
  induction h with
  | init =>
    intro m hm hrole
    simp [initialState] at hm
    subst hm
    simp [welcomeMessage] at hrole
  | step _ hstep ih => exact userContentInv_step ih hstep

/-- A `sources` field is carried only by finalized (non-loading,
non-error) assistant messages. -/
def SourcesPresenceInv (s : ChatState) : Prop :=
  ∀ m ∈ s.messages, m.sources ≠ none →
    m.role = Role.assistant ∧ m.error = false ∧ m.isLoading = false

theorem sourcesPresenceInv_step {s t : ChatState} (hs : SourcesPresenceInv s)
    (hstep : Step s t) : SourcesPresenceInv t := by
  cases hstep with
  | typing text => exact hs
  | submit =>
    by_cases hg : (jsTrim s.input = "" || s.isLoading) = true
    · simpa [SourcesPresenceInv, handleSubmit, hg] using hs
    · simp only [Bool.or_eq_true, decide_eq_true_eq, not_or, Bool.not_eq_true] at hg
      intro m hm hsrc
      rw [show (handleSubmit s).1.messages = s.messages ++
          [{ role := .user, content := jsTrim s.input }, placeholderMessage] by
        simp [handleSubmit, hg.1, hg.2]] at hm
      rcases List.mem_append.mp hm with hin | hin
      · exact hs m hin hsrc
      · simp only [List.mem_cons, List.not_mem_nil, or_false] at hin
        rcases hin with hin | hin
        · subst hin; simp at hsrc
        · subst hin; simp [placeholderMessage] at hsrc
  | success resp h =>
    intro m hm hsrc
    simp only [resolveSuccess] at hm
    rcases List.mem_append.mp hm with hin | hin
    · exact hs m ((List.dropLast_sublist s.messages).subset hin) hsrc
    · simp only [List.mem_cons, List.not_mem_nil, or_false] at hin
      subst hin
      exact ⟨rfl, rfl, rfl⟩
  | failure h =>
    intro m hm hsrc
    simp only [resolveFailure] at hm
    rcases List.mem_append.mp hm with hin | hin
    · exact hs m ((List.dropLast_sublist s.messages).subset hin) hsrc
    · simp only [List.mem_cons, List.not_mem_nil, or_false] at hin
      subst hin
      simp [errorMessage] at hsrc

theorem sourcesPresenceInv_reachable {s : ChatState} (h : Reachable s) :
    SourcesPresenceInv s := by
  induction h with
  | init =>
    intro m hm hsrc
    simp [initialState] at hm
    subst hm
    simp [welcomeMessage] at hsrc
  | step _ hstep ih => exact sourcesPresenceInv_step ih hstep

/-- C1: for every successful backend response to a submitted query, the
placeholder (last element) is removed and exactly one finalized
assistant message is appended, whose content is the service's answer
text or the fixed fallback string when the answer is empty, so the
conversation after resolution is the pre-submit conversation plus
exactly the user message and the finalized message — length plus 2,
never more. -/
theorem success_resolution (s : ChatState) (resp : ChatResponse)
    (h1 : jsTrim s.input ≠ "") (h2 : s.isLoading = false) :
    (resolveSuccess (handleSubmit s).1 resp).messages =
      s.messages ++
        [{ role := .user, content := jsTrim s.input },
         { role := .assistant
           content := if resp.answer = "" then fallbackAnswer else resp.answer
           sources := some (transformSources resp.sources) }] ∧
    (resolveSuccess (handleSubmit s).1 resp).messages.length =
      s.messages.length + 2 := by
  have hms : (handleSubmit s).1.messages =
      (s.messages ++ [{ role := .user, content := jsTrim s.input }]) ++
        [placeholderMessage] := by
    simp [handleSubmit, h1, h2]
  constructor
  · simp [resolveSuccess, hms, List.dropLast_concat]
  · simp [resolveSuccess, hms, List.dropLast_concat]

theorem success_resolution_witness :
    jsTrim (setInput initialState "  hello  ").input ≠ "" ∧
    (setInput initialState "  hello  ").isLoading = false ∧
    ((resolveSuccess (handleSubmit (setInput initialState "  hello  ")).1
        { answer := "42", sources := [] }).messages =
      (setInput initialState "  hello  ").messages ++
        [{ role := .user, content := jsTrim (setInput initialState "  hello  ").input },
         { role := .assistant
           content := if ({ answer := "42", sources := [] } : ChatResponse).answer = ""
             then fallbackAnswer
             else ({ answer := "42", sources := [] } : ChatResponse).answer
           sources := some (transformSources
             ({ answer := "42", sources := [] } : ChatResponse).sources) }] ∧
     (resolveSuccess (handleSubmit (setInput initialState "  hello  ")).1
        { answer := "42", sources := [] }).messages.length =
      (setInput initialState "  hello  ").messages.length + 2) :=
  ⟨by decide, rfl,
    success_resolution (setInput initialState "  hello  ")
      { answer := "42", sources := [] } (by decide) rfl⟩

/-- C2: for every transport or protocol failure, the placeholder is
removed and exactly one finalized assistant message is appended, with
`error = true`, the fixed connectivity-error text and no sources, so the
conversation length still equals the pre-submit length plus 2. -/
theorem failure_resolution (s : ChatState)
    (h1 : jsTrim s.input ≠ "") (h2 : s.isLoading = false) :
    (resolveFailure (handleSubmit s).1).messages =
      s.messages ++
        [{ role := .user, content := jsTrim s.input }, errorMessage] ∧
    (resolveFailure (handleSubmit s).1).messages.length =
      s.messages.length + 2 ∧
    errorMessage.error = true ∧
    errorMessage.content = connectivityErrorText ∧
    errorMessage.sources = none := by
  have hms : (handleSubmit s).1.messages =
      (s.messages ++ [{ role := .user, content := jsTrim s.input }]) ++
        [placeholderMessage] := by
    simp [handleSubmit, h1, h2]
  refine ⟨?_, ?_, rfl, rfl, rfl⟩
  · simp [resolveFailure, hms, List.dropLast_concat]
  · simp [resolveFailure, hms, List.dropLast_concat]

theorem failure_resolution_witness :
    jsTrim (setInput initialState " q ").input ≠ "" ∧
    (setInput initialState " q ").isLoading = false ∧
    ((resolveFailure (handleSubmit (setInput initialState " q ")).1).messages =
      (setInput initialState " q ").messages ++
        [{ role := .user, content := jsTrim (setInput initialState " q ").input },
         errorMessage] ∧
     (resolveFailure (handleSubmit (setInput initialState " q ")).1).messages.length =
      (setInput initialState " q ").messages.length + 2 ∧
     errorMessage.error = true ∧
     errorMessage.content = connectivityErrorText ∧
     errorMessage.sources = none) :=
  ⟨by decide, rfl, failure_resolution (setInput initialState " q ") (by decide) rfl⟩

/-- C3: for every input whose trimmed text is non-empty, when no request
is in flight, submit appends exactly two messages before the response
resolves — first a user message whose content is exactly the trimmed
input, then the assistant placeholder with `isLoading = true` and empty
content — sets the flag, and issues the request with the trimmed text as
query. -/
theorem submit_appends_two_messages (s : ChatState)
    (h1 : jsTrim s.input ≠ "") (h2 : s.isLoading = false) :
    (handleSubmit s).1.messages =
      s.messages ++
        [{ role := .user, content := jsTrim s.input }, placeholderMessage] ∧
    placeholderMessage.isLoading = true ∧
    placeholderMessage.content = "" ∧
    placeholderMessage.role = Role.assistant ∧
    (handleSubmit s).1.isLoading = true ∧
    (handleSubmit s).2 = some { query := jsTrim s.input } := by
  refine ⟨?_, rfl, rfl, rfl, ?_, ?_⟩ <;> simp [handleSubmit, h1, h2]

theorem submit_appends_two_messages_witness :
    jsTrim (setInput initialState "  hi there  ").input ≠ "" ∧
    (setInput initialState "  hi there  ").isLoading = false ∧
    ((handleSubmit (setInput initialState "  hi there  ")).1.messages =
      (setInput initialState "  hi there  ").messages ++
        [{ role := .user, content := jsTrim (setInput initialState "  hi there  ").input },
         placeholderMessage] ∧
     placeholderMessage.isLoading = true ∧
     placeholderMessage.content = "" ∧
     placeholderMessage.role = Role.assistant ∧
     (handleSubmit (setInput initialState "  hi there  ")).1.isLoading = true ∧
     (handleSubmit (setInput initialState "  hi there  ")).2 =
       some { query := jsTrim (setInput initialState "  hi there  ").input }) :=
  ⟨by decide, rfl,
    submit_appends_two_messages (setInput initialState "  hi there  ") (by decide) rfl⟩

/-- C4: calling submit while a request is in flight, or with an input
whose trimmed text is empty, is a no-op: the whole component state (in
particular the conversation and the in-flight flag) is unchanged and no
outbound request is issued. -/
theorem submit_noop (s : ChatState)
    (h : jsTrim s.input = "" ∨ s.isLoading = true) :
    (handleSubmit s).1 = s ∧ (handleSubmit s).2 = none := by
  rcases h with h | h <;> constructor <;> simp [handleSubmit, h]

theorem submit_noop_witness :
    (jsTrim (setInput initialState "   ").input = "" ∨
      (setInput initialState "   ").isLoading = true) ∧
    ((handleSubmit (setInput initialState "   ")).1 = setInput initialState "   " ∧
     (handleSubmit (setInput initialState "   ")).2 = none) :=
  ⟨Or.inl (by decide), submit_noop (setInput initialState "   ") (Or.inl (by decide))⟩

/-- C5: in every reachable conversation state at most one message has
`isLoading = true`; while a request is outstanding that message is the
last element (and is the placeholder), and while no request is
outstanding no message is loading.  Reachability closes the invariant
under every operation: typing, submit, success resolution and failure
resolution. -/
theorem loading_placeholder_unique (s : ChatState) (h : Reachable s) :
    loadingCount s.messages ≤ 1 ∧
    (s.isLoading = true →
      s.messages.getLast? = some placeholderMessage ∧ loadingCount s.messages = 1) ∧
    (s.isLoading = false → loadingCount s.messages = 0) := by
  have hinv := lifecycleInv_reachable h
  by_cases hb : s.isLoading = true
  · obtain ⟨ms, hms, hnl⟩ := hinv.1 hb
    have hcount : loadingCount s.messages = 1 := by
      rw [hms]
      unfold loadingCount
      rw [List.filter_append,
        List.filter_eq_nil_iff.mpr (fun m hm => by simp [hnl m hm])]
      decide
    refine ⟨by omega, fun _ => ⟨?_, hcount⟩, fun hf => by rw [hb] at hf; cases hf⟩
    rw [hms]
    simp
  · have hf : s.isLoading = false := by simpa using hb
    have h0 : loadingCount s.messages = 0 := loadingCount_of_noLoading (hinv.2 hf)
    exact ⟨by omega, fun ht => absurd ht hb, fun _ => h0⟩

theorem loading_placeholder_unique_witness :
    Reachable (handleSubmit (setInput initialState "hi")).1 ∧
    (loadingCount (handleSubmit (setInput initialState "hi")).1.messages ≤ 1 ∧
     ((handleSubmit (setInput initialState "hi")).1.isLoading = true →
       (handleSubmit (setInput initialState "hi")).1.messages.getLast? =
         some placeholderMessage ∧
       loadingCount (handleSubmit (setInput initialState "hi")).1.messages = 1) ∧
     ((handleSubmit (setInput initialState "hi")).1.isLoading = false →
       loadingCount (handleSubmit (setInput initialState "hi")).1.messages = 0)) :=
  ⟨Reachable.step (Reachable.step Reachable.init (Step.typing initialState "hi"))
      (Step.submit (setInput initialState "hi")),
   loading_placeholder_unique (handleSubmit (setInput initialState "hi")).1
     (Reachable.step (Reachable.step Reachable.init (Step.typing initialState "hi"))
       (Step.submit (setInput initialState "hi")))⟩

/-- C6: for every backend success response, the finalized assistant
message carries exactly the transformed citation list: same length as
the response's citations, same order, each element's `text` equal to the
item's `source_text_preview` and its `metadata` equal to the item's
`metadata`. -/
theorem source_field_mapping (s : ChatState) (resp : ChatResponse) (i : Nat)
    (hi : i < resp.sources.length) :
    (resolveSuccess s resp).messages.getLast? =
      some { role := .assistant
             content := if resp.answer = "" then fallbackAnswer else resp.answer
             sources := some (transformSources resp.sources) } ∧
    (transformSources resp.sources).length = resp.sources.length ∧
    (transformSources resp.sources)[i]? =
      some { text := (resp.sources[i]).source_text_preview
             metadata := (resp.sources[i]).metadata } := by
  refine ⟨?_, ?_, ?_⟩
  · simp [resolveSuccess]
  · simp [transformSources]
  · simp [transformSources, List.getElem?_eq_getElem hi]

theorem source_field_mapping_witness :
    (0 : Nat) < ({ answer := "15% ad valorem"
                   sources := [{ source_text_preview := "Tariff Schedule Part II, Item 12"
                                 metadata := some [("section", "12")] }] } :
        ChatResponse).sources.length ∧
    ((resolveSuccess initialState
        { answer := "15% ad valorem"
          sources := [{ source_text_preview := "Tariff Schedule Part II, Item 12"
                        metadata := some [("section", "12")] }] }).messages.getLast? =
      some { role := .assistant
             content := if ({ answer := "15% ad valorem"
                              sources := [{ source_text_preview := "Tariff Schedule Part II, Item 12"
                                            metadata := some [("section", "12")] }] } :
                 ChatResponse).answer = "" then fallbackAnswer
               else ({ answer := "15% ad valorem"
                       sources := [{ source_text_preview := "Tariff Schedule Part II, Item 12"
                                     metadata := some [("section", "12")] }] } :
                 ChatResponse).answer
             sources := some (transformSources
               ({ answer := "15% ad valorem"
                  sources := [{ source_text_preview := "Tariff Schedule Part II, Item 12"
                                metadata := some [("section", "12")] }] } :
                 ChatResponse).sources) } ∧
     (transformSources ({ answer := "15% ad valorem"
                          sources := [{ source_text_preview := "Tariff Schedule Part II, Item 12"
                                        metadata := some [("section", "12")] }] } :
         ChatResponse).sources).length =
       ({ answer := "15% ad valorem"
          sources := [{ source_text_preview := "Tariff Schedule Part II, Item 12"
                        metadata := some [("section", "12")] }] } :
         ChatResponse).sources.length ∧
     (transformSources ({ answer := "15% ad valorem"
                          sources := [{ source_text_preview := "Tariff Schedule Part II, Item 12"
                                        metadata := some [("section", "12")] }] } :
         ChatResponse).sources)[0]? =
       some { text := (({ answer := "15% ad valorem"
                          sources := [{ source_text_preview := "Tariff Schedule Part II, Item 12"
                                        metadata := some [("section", "12")] }] } :
                 ChatResponse).sources[0]).source_text_preview
              metadata := (({ answer := "15% ad valorem"
                              sources := [{ source_text_preview := "Tariff Schedule Part II, Item 12"
                                            metadata := some [("section", "12")] }] } :
                 ChatResponse).sources[0]).metadata }) :=
  ⟨by decide,
    source_field_mapping initialState
      { answer := "15% ad valorem"
        sources := [{ source_text_preview := "Tariff Schedule Part II, Item 12"
                      metadata := some [("section", "12")] }] } 0 (by decide)⟩

/-- C7: the in-flight flag is never left stuck at true: both the success
continuation and the failure continuation (the two exits of the
`try`/`catch`, each followed by the `finally` block) leave the flag
false. -/
theorem inflight_always_cleared (s : ChatState) (resp : ChatResponse) :
    (resolveSuccess s resp).isLoading = false ∧
    (resolveFailure s).isLoading = false :=
  ⟨rfl, rfl⟩

/-- C8 counterexample: the success continuation sets
`sources: transformedSources` unconditionally, so a success response
with zero citations yields a finalized assistant message whose `sources`
field is PRESENT, holding the empty list, rather than absent.  The bad
state is reachable: start, type "hi", submit, resolve with
`{answer: "ok", sources: []}`. -/
theorem sources_absent_without_citations_cex :
    Reachable (resolveSuccess (handleSubmit (setInput initialState "hi")).1
      { answer := "ok", sources := [] }) ∧
    (resolveSuccess (handleSubmit (setInput initialState "hi")).1
        { answer := "ok", sources := [] }).messages.getLast? =
      some { role := .assistant, content := "ok", sources := some [] } ∧
    ({ role := .assistant, content := "ok", sources := some [] } : Message).sources ≠
      none :=
  ⟨Reachable.step
      (Reachable.step (Reachable.step Reachable.init (Step.typing initialState "hi"))
        (Step.submit (setInput initialState "hi")))
      (Step.success (handleSubmit (setInput initialState "hi")).1
        { answer := "ok", sources := [] } (by decide)),
   by decide, by decide⟩

/-- C8 amended: in every reachable conversation state a `sources` field
is carried only by finalized (non-loading, non-error) assistant
messages — never by user messages, error messages or the placeholder —
and every success-finalized assistant message carries one, holding the
mapped citation list, which is the empty list (present, not absent) when
the response returned no citations. -/
theorem sources_presence (s : ChatState) (h : Reachable s) (resp : ChatResponse) :
    (∀ m ∈ s.messages, m.sources ≠ none →
      m.role = Role.assistant ∧ m.error = false ∧ m.isLoading = false) ∧
    (resolveSuccess s resp).messages.getLast? =
      some { role := .assistant
             content := if resp.answer = "" then fallbackAnswer else resp.answer
             sources := some (transformSources resp.sources) } := by
  refine ⟨fun m hm hsrc => sourcesPresenceInv_reachable h m hm hsrc, ?_⟩
  simp [resolveSuccess]

theorem sources_presence_witness :
    Reachable initialState ∧
    ((∀ m ∈ initialState.messages, m.sources ≠ none →
       m.role = Role.assistant ∧ m.error = false ∧ m.isLoading = false) ∧
     (resolveSuccess initialState { answer := "ok", sources := [] }).messages.getLast? =
       some { role := .assistant
              content := if ({ answer := "ok", sources := [] } : ChatResponse).answer = ""
                then fallbackAnswer
                else ({ answer := "ok", sources := [] } : ChatResponse).answer
              sources := some (transformSources
                ({ answer := "ok", sources := [] } : ChatResponse).sources) }) :=
  ⟨Reachable.init,
    sources_presence initialState Reachable.init { answer := "ok", sources := [] }⟩

/-- C9: a failure resolution alters only its own exchange: it keeps the
conversation length, leaves every message before the replaced
placeholder (all prior user and assistant messages, including the seeded
welcome message) untouched at its position, and places the fixed error
message last. -/
theorem failure_is_local (s : ChatState) (h : Reachable s)
    (hl : s.isLoading = true) :
    (resolveFailure s).messages.length = s.messages.length ∧
    (∀ i, i < s.messages.length - 1 →
      (resolveFailure s).messages[i]? = s.messages[i]?) ∧
    (resolveFailure s).messages.getLast? = some errorMessage := by
  obtain ⟨ms, hms, -⟩ := (lifecycleInv_reachable h).1 hl
  have hres : (resolveFailure s).messages = ms ++ [errorMessage] := by
    simp [resolveFailure, hms, List.dropLast_concat]
  refine ⟨?_, ?_, ?_⟩
  · rw [hres, hms]
    simp
  · intro i hi
    rw [hms] at hi
    simp only [List.length_append, List.length_cons, List.length_nil] at hi
    have hi2 : i < ms.length := by omega
    rw [hres, hms, List.getElem?_append_left hi2, List.getElem?_append_left hi2]
  · rw [hres]
    simp

theorem failure_is_local_witness :
    Reachable (handleSubmit (setInput initialState "hi")).1 ∧
    (handleSubmit (setInput initialState "hi")).1.isLoading = true ∧
    ((resolveFailure (handleSubmit (setInput initialState "hi")).1).messages.length =
      (handleSubmit (setInput initialState "hi")).1.messages.length ∧
     (∀ i, i < (handleSubmit (setInput initialState "hi")).1.messages.length - 1 →
       (resolveFailure (handleSubmit (setInput initialState "hi")).1).messages[i]? =
         (handleSubmit (setInput initialState "hi")).1.messages[i]?) ∧
     (resolveFailure (handleSubmit (setInput initialState "hi")).1).messages.getLast? =
       some errorMessage) :=
  ⟨Reachable.step (Reachable.step Reachable.init (Step.typing initialState "hi"))
      (Step.submit (setInput initialState "hi")),
   by decide,
   failure_is_local (handleSubmit (setInput initialState "hi")).1
     (Reachable.step (Reachable.step Reachable.init (Step.typing initialState "hi"))
       (Step.submit (setInput initialState "hi")))
     (by decide)⟩

/-- C10: in every reachable conversation state every message with role
user has non-empty content — submit only stores the trimmed text of an
input whose trim is non-empty, and no later operation touches a user
message. -/
theorem user_messages_nonempty (s : ChatState) (h : Reachable s) :
    ∀ m ∈ s.messages, m.role = Role.user → m.content ≠ "" :=
  userContentInv_reachable h

theorem user_messages_nonempty_witness :
    Reachable (handleSubmit (setInput initialState " duty? ")).1 ∧
    (∀ m ∈ (handleSubmit (setInput initialState " duty? ")).1.messages,
      m.role = Role.user → m.content ≠ "") :=
  ⟨Reachable.step (Reachable.step Reachable.init (Step.typing initialState " duty? "))
      (Step.submit (setInput initialState " duty? ")),
   user_messages_nonempty (handleSubmit (setInput initialState " duty? ")).1
     (Reachable.step (Reachable.step Reachable.init (Step.typing initialState " duty? "))
       (Step.submit (setInput initialState " duty? ")))⟩

end NCSChat
